import Mathlib

/-!
Shallow embedding of the Xerox FTP to Egnyte gateway (doghousedev/xerox-ftp-egnyte-gateway).

The repository holds several variants of the gateway:
* `src/unnamed/part_000` — the "Fixed" gateway (ftp-srv based, snapshot-and-clear
  upload queue, combined credential check);
* `src/unnamed/part_001` (first file) — the "Production v31" gateway (ftp-srv based,
  session registry keyed by username, capacity / credential / duplicate checks,
  EgnyteClient with directory-ensure, STOR handler with auto-disconnect);
* `src/unnamed/part_001` (second file) — an older ftpd-based variant whose drain
  iterates the live queue and clears it at the end;
* `src/backup/simple-ftp-server.js` — a simple variant whose drain splices
  successful items out of the live queue and paces only after successes.

Each definition below is translated from one of those source sites; the site is
named in its doc comment.
-/

namespace Gateway

/-! ## Connections, users, registry state (part_001 v31) -/

/-- A protocol connection handle, as the v31 gateway observes it: an identity
plus the two liveness flags the stale-connection sweep inspects
(`connInfo.connection.destroyed || connInfo.connection.readyState === 'closed'`). -/
structure Conn where
  id : Nat
  destroyed : Bool
  readyStateClosed : Bool
deriving DecidableEq

/-- One entry of `user-mapping.json`: `{password, email, egnytePath}`. -/
structure UserInfo where
  password : String
  email : String
  egnytePath : String
deriving DecidableEq

/-- The v31 gateway's `connectionInfo` record stored in `activeConnections`
(`{connection, username, userInfo, loginTime, lastActivity}`). -/
structure ConnectionInfo where
  connection : Conn
  username : String
  userInfo : UserInfo
  loginTime : Nat
  lastActivity : Nat
deriving DecidableEq

/-- Server-side registry state: the `activeConnections` map (username-keyed,
modelled as an association list in insertion order, as a JS `Map` iterates) and
the set of connection ids on which `.close()` has been invoked. -/
structure ServerState where
  activeConnections : List (String × ConnectionInfo)
  closedConns : List Nat
deriving DecidableEq

/-- Lookup in an association list: the JS `map.get(u)` / `userMappings[u]`. -/
def lookupKey {β : Type} (u : String) : List (String × β) → Option β
  | [] => none
  | (k, v) :: rest => if k = u then some v else lookupKey u rest

/-- Removal from an association list: the JS `map.delete(u)`. -/
def eraseKey {β : Type} (u : String) : List (String × β) → List (String × β)
  | [] => []
  | (k, v) :: rest => if k = u then rest else (k, v) :: eraseKey u rest

/-- The JS `map.has(u)`. -/
def hasKey {β : Type} (u : String) (m : List (String × β)) : Bool :=
  (lookupKey u m).isSome

/-- Stale-connection cleanup (part_001 lines 374-379 and the periodic sweep at
lines 594-606): drop every entry whose connection is destroyed or closed. -/
def pruneStale (m : List (String × ConnectionInfo)) : List (String × ConnectionInfo) :=
  m.filter (fun p => !(p.2.connection.destroyed || p.2.connection.readyStateClosed))

/-- Outcome tag of the v31 login handler. -/
inductive LoginResult where
  | capacityExceeded
  | userNotFound
  | invalidPassword
  | ok
deriving DecidableEq

/-- Observable actions the v31 login handler performs, in order. -/
inductive LoginAction where
  | rejectCapacity
  | rejectUnknownUser
  | rejectBadPassword
  | closeConnection (id : Nat)
  | removeEntry (u : String)
  | recordEntry (u : String) (connId : Nat)
deriving DecidableEq

/-- Result of one call of the v31 login handler: the admission result, the
registry state afterwards, the rejection message handed to `reject` (if any),
and the ordered trace of registry actions taken. -/
structure LoginOutcome where
  result : LoginResult
  state : ServerState
  message : Option String
  actions : List LoginAction
deriving DecidableEq

/-- The v31 `ftpServer.on('login')` handler (part_001 lines 368-431), in its
source order: prune stale entries, then the capacity check
(`activeConnections.size >= MAX_CONNECTIONS`), then the unknown-user check,
then the password check, then duplicate-session termination
(`close` the prior connection, `delete` its entry), then `set` the new entry. -/
def handleLogin (mappings : List (String × UserInfo)) (maxConnections : Nat)
    (st : ServerState) (conn : Conn) (username password : String) (now : Nat) :
    LoginOutcome :=
  let pruned := pruneStale st.activeConnections
  if maxConnections ≤ pruned.length then
    { result := .capacityExceeded,
      state := { st with activeConnections := pruned },
      message := some "Server busy - maximum connections reached",
      actions := [.rejectCapacity] }
  else
    match lookupKey username mappings with
    | none =>
        { result := .userNotFound,
          state := { st with activeConnections := pruned },
          message := some ("User \"" ++ username ++ "\" not found"),
          actions := [.rejectUnknownUser] }
    | some userInfo =>
        if userInfo.password ≠ password then
          { result := .invalidPassword,
            state := { st with activeConnections := pruned },
            message := some "Invalid password",
            actions := [.rejectBadPassword] }
        else
          match lookupKey username pruned with
          | some existing =>
              { result := .ok,
                state :=
                  { activeConnections :=
                      eraseKey username pruned ++
                        [(username, ⟨conn, username, userInfo, now, now⟩)],
                    closedConns := existing.connection.id :: st.closedConns },
                message := none,
                actions := [.closeConnection existing.connection.id,
                            .removeEntry username,
                            .recordEntry username conn.id] }
          | none =>
              { result := .ok,
                state :=
                  { st with activeConnections :=
                      pruned ++ [(username, ⟨conn, username, userInfo, now, now⟩)] },
                message := none,
                actions := [.recordEntry username conn.id] }

/-- The part_000 login credential check (lines 155-160):
`if (!userMappings[username] || userMappings[username].password !== password)
 reject(new Error('Authentication failed'))` — a single rejection message for
both unknown user and wrong password. Returns the rejection message, or `none`
on acceptance. -/
def loginFixedCheck (mappings : List (String × UserInfo))
    (username password : String) : Option String :=
  match lookupKey username mappings with
  | none => some "Authentication failed"
  | some info =>
      if info.password ≠ password then some "Authentication failed" else none

/-- `connection.on('close')` / `on('end')` / `on('error')` in the v31 gateway
(part_001 lines 535-553): delete the registry entry for the username. -/
def releaseUser (st : ServerState) (username : String) : ServerState :=
  { st with activeConnections := eraseKey username st.activeConnections }

/-- The v31 idle-timeout callback (part_001 lines 434-442): delete the entry,
then close the connection. -/
def idleTimeoutFire (st : ServerState) (username : String) (connId : Nat) : ServerState :=
  { activeConnections := eraseKey username st.activeConnections,
    closedConns := connId :: st.closedConns }

/-- The periodic stale-connection sweep (part_001 lines 594-606). -/
def sweepStale (st : ServerState) : ServerState :=
  { st with activeConnections := pruneStale st.activeConnections }

/-- Registry states reachable from the empty registry by the v31 gateway's
operations: logins, disconnect/error releases, idle-timeout fires and sweeps. -/
inductive Reachable (mappings : List (String × UserInfo)) (maxConnections : Nat) :
    ServerState → Prop where
  | init : Reachable mappings maxConnections ⟨[], []⟩
  | login : ∀ st conn u p now, Reachable mappings maxConnections st →
      Reachable mappings maxConnections (handleLogin mappings maxConnections st conn u p now).state
  | release : ∀ st u, Reachable mappings maxConnections st →
      Reachable mappings maxConnections (releaseUser st u)
  | idle : ∀ st u cid, Reachable mappings maxConnections st →
      Reachable mappings maxConnections (idleTimeoutFire st u cid)
  | sweep : ∀ st, Reachable mappings maxConnections st →
      Reachable mappings maxConnections (sweepStale st)

/-- The registry holds at most one entry per username. -/
def keysNodup (st : ServerState) : Prop :=
  (st.activeConnections.map Prod.fst).Nodup

/-! ## Upload queue and drains -/

/-- One `uploadQueue` entry
(`{localPath, egnytePath, fileName, username}` in every variant). -/
structure Item where
  localPath : String
  egnytePath : String
  fileName : String
  username : String
deriving DecidableEq

/-- Observable timing events of a drain: dispatch of an item's upload attempt,
and a pacing wait of the given number of milliseconds. -/
inductive Ev where
  | dispatch (it : Item)
  | wait (ms : Nat)
deriving DecidableEq

/-- The items dispatched in a trace, in order. -/
def dispatches : List Ev → List Item
  | [] => []
  | Ev.dispatch it :: rest => it :: dispatches rest
  | Ev.wait _ :: rest => dispatches rest

/-- State threaded through the part_000 drain loop: the staged local files
still present, the success and failure counters, and the timing trace. -/
structure DrainState where
  fsFiles : List String
  succ : Nat
  fail : Nat
  trace : List Ev
deriving DecidableEq

/-- One iteration body of part_000's `processUploadQueue` loop (lines 94-110):
`try { await uploadToEgnyte(...); fs.unlinkSync(item.localPath); success++ }
 catch { failed++ }`. The remote outcome is the oracle `uploadOk`; `unlinkSync`
throws when the path is absent, which the same `catch` counts as a failure. -/
def runItem (uploadOk : Item → Bool) (st : DrainState) (it : Item) : DrainState :=
  if uploadOk it then
    if st.fsFiles.contains it.localPath then
      { fsFiles := st.fsFiles.erase it.localPath,
        succ := st.succ + 1, fail := st.fail,
        trace := st.trace ++ [Ev.dispatch it] }
    else
      { st with fail := st.fail + 1, trace := st.trace ++ [Ev.dispatch it] }
  else
    { st with fail := st.fail + 1, trace := st.trace ++ [Ev.dispatch it] }

/-- Part_000's `processUploadQueue` item loop (lines 94-117): process each
snapshot item in order, and wait `UPLOAD_DELAY` after an item exactly when it
is not the last one (`if (i < filesToProcess.length - 1) await delay`). -/
def drainLoop (uploadOk : Item → Bool) (delay : Nat) :
    List Item → DrainState → DrainState
  | [], st => st
  | it :: rest, st =>
      drainLoop uploadOk delay rest
        (if rest.isEmpty then runItem uploadOk st it
         else { runItem uploadOk st it with
                  trace := (runItem uploadOk st it).trace ++ [Ev.wait delay] })

/-- Result of one part_000 drain: the drain-loop state over the snapshot, and
the `uploadQueue` afterwards. -/
structure DrainOutcome where
  drained : DrainState
  finalQueue : List Item
deriving DecidableEq

/-- Part_000's `processUploadQueue` (lines 79-121): snapshot the queue
(`const filesToProcess = [...uploadQueue]`), clear it
(`uploadQueue.length = 0`) — both on the same synchronous turn, before the
first `await` — then run the loop over the snapshot. `arrivals` are the items
`connection.on('STOR')` pushes while the drain is suspended; they land in the
cleared live queue, which the drain never reads again. -/
def processUploadQueueModel (uploadOk : Item → Bool) (delay : Nat)
    (queue : List Item) (fsFiles : List String) (arrivals : List Item) :
    DrainOutcome :=
  let snapshot := queue
  { drained := drainLoop uploadOk delay snapshot ⟨fsFiles, 0, 0, []⟩,
    finalQueue := arrivals }

/-- The batch summary part_000 logs at line 119-120:
`Batch complete: ${success} success, ${failed} failed`. -/
def batchReport (st : DrainState) : Nat × Nat :=
  (st.succ, st.fail)

/-- Checks that a trace is dispatches separated by waits of at least `d`, with
no wait after the final dispatch: the spec's pacing invariant. -/
def wellPacedB (d : Nat) : List Ev → Bool
  | [] => true
  | [Ev.dispatch _] => true
  | Ev.dispatch _ :: Ev.wait w :: rest =>
      decide (d ≤ w) && !rest.isEmpty && wellPacedB d rest
  | _ => false

/-! ### The ftpd-variant drain (second file of part_001) -/

/-- Total number of items in a schedule of mid-drain arrivals. -/
def sumLen (arrs : List (List Item)) : Nat :=
  arrs.foldr (fun a n => a.length + n) 0

/-- The ftpd variant's `processUploadQueue` loop (part_001 lines 690-706):
`for (const item of uploadQueue) { try { upload; unlink; ... } catch {...} }`.
The `for...of` iterator walks the *live* array, so items pushed during an
`await` (the `arrs` schedule gives the items arriving while item `i` is being
processed) are reached by the same loop. Returns the dispatched items in order
and the remaining local files. -/
def drainFtpdGo (uploadOk : Item → Bool) :
    List Item → List (List Item) → List String → List Item × List String
  | [], _, fsFiles => ([], fsFiles)
  | it :: rest, arrs, fsFiles =>
      let fs2 := if uploadOk it && fsFiles.contains it.localPath
                 then fsFiles.erase it.localPath else fsFiles
      let step := drainFtpdGo uploadOk (rest ++ arrs.headD []) (arrs.drop 1) fs2
      (it :: step.1, step.2)
termination_by q arrs _ => q.length + sumLen arrs
decreasing_by
  cases arrs with
  | nil => simp [sumLen]
  | cons h t => simp [sumLen]; omega

/-- The ftpd variant's whole `processUploadQueue` (part_001 lines 684-711):
iterate the live queue, then clear it at the end (`uploadQueue.length = 0`).
Returns the dispatched items, the final (cleared) queue and the local files. -/
def drainFtpdModel (uploadOk : Item → Bool) (queue : List Item)
    (arrs : List (List Item)) (fsFiles : List String) :
    List Item × List Item × List String :=
  let run := drainFtpdGo uploadOk queue arrs fsFiles
  (run.1, [], run.2)

/-! ### The backup variant's drain (src/backup/simple-ftp-server.js) -/

/-- State threaded through the backup variant's `processUploads` loop: the
live `uploadQueue` (successful items are spliced out of it), the local files,
the counters and the timing trace. -/
structure BackupState where
  queue : List Item
  fsFiles : List String
  succ : Nat
  fail : Nat
  trace : List Ev
deriving DecidableEq

/-- The backup variant's `processUploads` loop (simple-ftp-server.js lines
72-91): iterate a snapshot (`[...uploadQueue]`); on success unlink the file,
splice the item out of the live queue, and wait only
`if (uploadQueue.length > 0)`; on failure (the `catch`) count it and move on
with no splice and no wait. -/
def processUploadsGo (uploadOk : Item → Bool) (delay : Nat) :
    List Item → BackupState → BackupState
  | [], st => st
  | it :: rest, st =>
      if uploadOk it && st.fsFiles.contains it.localPath then
        let q2 := st.queue.erase it
        processUploadsGo uploadOk delay rest
          { queue := q2,
            fsFiles := st.fsFiles.erase it.localPath,
            succ := st.succ + 1, fail := st.fail,
            trace := st.trace ++ [Ev.dispatch it] ++
              (if q2.isEmpty then [] else [Ev.wait delay]) }
      else
        processUploadsGo uploadOk delay rest
          { st with fail := st.fail + 1,
                    trace := st.trace ++ [Ev.dispatch it] }

/-- The backup variant's `processUploads` (lines 61-94) run over the live
queue: the snapshot is `[...uploadQueue]` taken at entry. -/
def processUploadsModel (uploadOk : Item → Bool) (delay : Nat)
    (queue : List Item) (fsFiles : List String) : BackupState :=
  processUploadsGo uploadOk delay queue
    { queue := queue, fsFiles := fsFiles, succ := 0, fail := 0, trace := [] }

/-! ## EgnyteClient (part_001 v31, lines 118-329) -/

/-- Result of `EgnyteClient.ensureDirectoryExists`: what it returned, whether
it logged the downgrade warning, and whether an error escaped to the caller. -/
structure EnsureResult where
  returned : Option Bool
  warned : Bool
  raised : Bool
deriving DecidableEq

/-- `EgnyteClient.ensureDirectoryExists` (part_001 lines 276-328), driven by
the remote outcomes: the directory-check response (`checkOk`; if not ok,
`check404` says whether the status was 404) and the folder-creation response
(`createOk`). The whole body is wrapped in `try ... catch` whose handler logs
a warning and deliberately does not rethrow
(`// Don't throw - proceed with upload anyway`). -/
def ensureDirectoryExists (checkOk check404 createOk : Bool) : EnsureResult :=
  if checkOk then
    { returned := some true, warned := false, raised := false }
  else if check404 then
    if createOk then
      { returned := some true, warned := false, raised := false }
    else
      { returned := none, warned := true, raised := false }
  else
    { returned := none, warned := true, raised := false }

/-- The observable steps of `EgnyteClient.uploadFile`, in execution order. -/
inductive UploadStep where
  | checkLocalFile
  | ensureDir
  | httpUpload
deriving DecidableEq

/-- Result of `EgnyteClient.uploadFile`: the steps it performed in order,
whether it returned success, and whether it threw to its caller. -/
structure UploadFileResult where
  steps : List UploadStep
  success : Bool
  raised : Bool
deriving DecidableEq

/-- `EgnyteClient.uploadFile` (part_001 lines 169-274): check the local file
exists (throwing if not), `await this.ensureDirectoryExists(dirname(dest))`,
then POST the bytes; a non-ok HTTP response throws, and the surrounding
`catch` logs and rethrows (`throw error`). `localExists` and `httpOk` are the
external outcomes; the three directory booleans drive `ensureDirectoryExists`. -/
def uploadFile (localExists : Bool) (checkOk check404 createOk : Bool)
    (httpOk : Bool) : UploadFileResult :=
  if localExists then
    let _ensure := ensureDirectoryExists checkOk check404 createOk
    if httpOk then
      { steps := [.checkLocalFile, .ensureDir, .httpUpload],
        success := true, raised := false }
    else
      { steps := [.checkLocalFile, .ensureDir, .httpUpload],
        success := false, raised := true }
  else
    { steps := [.checkLocalFile], success := false, raised := true }

/-! ## The v31 STOR handler (part_001 lines 465-532) -/

/-- Observable actions of the v31 `connection.on('STOR')` handler. -/
inductive StorAction where
  | statFailWarn
  | egnyteNotConfigured
  | unlinkLocal
  | warnDeleteFailed
  | scheduleAutoDisconnect (delayMs : Nat)
  | keepSessionOpen
deriving DecidableEq

/-- The v31 STOR handler after a file lands (part_001 lines 479-531):
`statSync` may throw (outer catch → warning only); if the Egnyte client is
unconfigured the file is retained and the handler returns; otherwise
`uploadFile` is awaited — on success the local file is unlinked (a failing
unlink only warns) and `setTimeout(close-if-active, AUTO_DISCONNECT_DELAY)` is
scheduled; on upload failure the file is retained, the session is kept open,
and no auto-disconnect is scheduled. -/
def storHandler (egnyteConfigured statOk uploadOk unlinkOk : Bool)
    (delay : Nat) : List StorAction :=
  if !statOk then [.statFailWarn]
  else if !egnyteConfigured then [.egnyteNotConfigured]
  else if uploadOk then
    (if unlinkOk then [.unlinkLocal] else [.warnDeleteFailed]) ++
      [.scheduleAutoDisconnect delay]
  else [.keepSessionOpen]

/-- The auto-disconnect timer callback (part_001 lines 512-516):
`if (activeConnections.has(username)) connection.close()`. Returns whether the
connection is closed when the timer fires. -/
def autoDisconnectFire (st : ServerState) (username : String) : Bool :=
  hasKey username st.activeConnections

/-! ## Registry lemmas -/

theorem lookupKey_eq_none {β : Type} {u : String} {m : List (String × β)} :
    lookupKey u m = none ↔ u ∉ m.map Prod.fst := by
  induction m with
  | nil => simp [lookupKey]
  | cons p rest ih =>
      obtain ⟨k, v⟩ := p
      by_cases hk : k = u
      · subst hk
        simp [lookupKey]
      · simp only [lookupKey, if_neg hk, List.map_cons, List.mem_cons, ih]
        constructor
        · intro h hmem
          rcases hmem with h1 | h2
          · exact hk h1.symm
          · exact h h2
        · intro h hmem
          exact h (Or.inr hmem)

theorem eraseKey_sublist {β : Type} (u : String) (m : List (String × β)) :
    List.Sublist (eraseKey u m) m := by
  induction m with
  | nil => simp [eraseKey]
  | cons p rest ih =>
      obtain ⟨k, v⟩ := p
      by_cases hk : k = u
      · simp [eraseKey, hk]
      · simpa [eraseKey, hk] using ih.cons₂ (k, v)

theorem not_mem_keys_eraseKey {β : Type} {u : String} {m : List (String × β)}
    (h : (m.map Prod.fst).Nodup) : u ∉ (eraseKey u m).map Prod.fst := by
  induction m with
  | nil => simp [eraseKey]
  | cons p rest ih =>
      obtain ⟨k, v⟩ := p
      simp only [List.map_cons, List.nodup_cons] at h
      by_cases hk : k = u
      · subst hk
        simpa [eraseKey] using h.1
      · simp only [eraseKey]
        rw [if_neg hk]
        simp only [List.map_cons, List.mem_cons]
        push_neg
        exact ⟨fun h1 => hk h1.symm, ih h.2⟩

theorem nodup_append_single {α : Type} {l : List α} {a : α}
    (h : l.Nodup) (ha : a ∉ l) : (l ++ [a]).Nodup := by
  simp [List.nodup_append, h, ha, List.disjoint_singleton]

theorem keys_pruneStale_sublist (m : List (String × ConnectionInfo)) :
    List.Sublist ((pruneStale m).map Prod.fst) (m.map Prod.fst) :=
  List.Sublist.map _ (List.filter_sublist m)

theorem keysNodup_handleLogin (mappings : List (String × UserInfo))
    (maxConnections : Nat) (st : ServerState) (conn : Conn)
    (username password : String) (now : Nat) (h : keysNodup st) :
    keysNodup (handleLogin mappings maxConnections st conn username password now).state := by
  have hp : ((pruneStale st.activeConnections).map Prod.fst).Nodup :=
    (keys_pruneStale_sublist st.activeConnections).nodup h
  simp only [handleLogin, keysNodup]
  split
  · simpa using hp
  · split
    · simpa using hp
    · split
      · simpa using hp
      · split
        · simp only [List.map_append, List.map_cons, List.map_nil]
          exact nodup_append_single
            (((eraseKey_sublist username _).map Prod.fst).nodup hp)
            (not_mem_keys_eraseKey hp)
        · simp only [List.map_append, List.map_cons, List.map_nil]
          exact nodup_append_single hp (lookupKey_eq_none.mp (by assumption))

/-! ## Drain-loop lemmas (part_000) -/

/-- The timing trace the part_000 loop produces over a snapshot: dispatches
separated by the pacing wait, with no wait after the last dispatch. -/
def interPace (delay : Nat) : List Item → List Ev
  | [] => []
  | it :: rest =>
      Ev.dispatch it ::
        (if rest.isEmpty then [] else Ev.wait delay :: interPace delay rest)

theorem runItem_trace (u : Item → Bool) (st : DrainState) (it : Item) :
    (runItem u st it).trace = st.trace ++ [Ev.dispatch it] := by
  unfold runItem
  split
  · split <;> rfl
  · rfl

theorem drainLoop_cons (u : Item → Bool) (d : Nat) (it : Item)
    (rest : List Item) (st : DrainState) :
    drainLoop u d (it :: rest) st =
      drainLoop u d rest
        (if rest.isEmpty then runItem u st it
         else { runItem u st it with
                  trace := (runItem u st it).trace ++ [Ev.wait d] }) := rfl

theorem drainLoop_trace (u : Item → Bool) (d : Nat) :
    ∀ (l : List Item) (st : DrainState),
      (drainLoop u d l st).trace = st.trace ++ interPace d l := by
  intro l
  induction l with
  | nil => intro st; simp [drainLoop, interPace]
  | cons it rest ih =>
      intro st
      cases rest with
      | nil =>
          rw [drainLoop_cons]
          simp [drainLoop, interPace, runItem_trace]
      | cons it2 rest2 =>
          rw [drainLoop_cons, ih]
          simp [interPace, runItem_trace]

theorem interPace_ne_nil (d : Nat) (it : Item) (rest : List Item) :
    (interPace d (it :: rest)).isEmpty = false := rfl

theorem wellPacedB_interPace (d : Nat) :
    ∀ l : List Item, wellPacedB d (interPace d l) = true := by
  intro l
  induction l with
  | nil => rfl
  | cons it rest ih =>
      cases rest with
      | nil => rfl
      | cons it2 rest2 =>
          have h1 : interPace d (it :: it2 :: rest2) =
              Ev.dispatch it :: Ev.wait d :: interPace d (it2 :: rest2) := rfl
          have h2 : interPace d (it2 :: rest2) =
              Ev.dispatch it2 ::
                (if (rest2 : List Item).isEmpty then []
                 else Ev.wait d :: interPace d rest2) := rfl
          rw [h1, h2]
          simp only [wellPacedB]
          rw [← h2]
          simp [ih, interPace_ne_nil]

theorem dispatches_interPace (d : Nat) :
    ∀ l : List Item, dispatches (interPace d l) = l := by
  intro l
  induction l with
  | nil => rfl
  | cons it rest ih =>
      cases rest with
      | nil => rfl
      | cons it2 rest2 =>
          have h1 : interPace d (it :: it2 :: rest2) =
              Ev.dispatch it :: Ev.wait d :: interPace d (it2 :: rest2) := rfl
          rw [h1]
          show it :: dispatches (interPace d (it2 :: rest2)) = it :: it2 :: rest2
          rw [ih]

theorem drainLoop_spec (u : Item → Bool) (d : Nat) :
    ∀ (l : List Item) (st : DrainState),
      st.fsFiles.Nodup →
      (l.map Item.localPath).Nodup →
      (∀ it ∈ l, it.localPath ∈ st.fsFiles) →
      (drainLoop u d l st).succ = st.succ + (l.filter (fun it => u it)).length ∧
      (drainLoop u d l st).fail = st.fail + (l.filter (fun it => !u it)).length ∧
      (drainLoop u d l st).fsFiles.Nodup ∧
      (∀ p, p ∈ (drainLoop u d l st).fsFiles ↔
        p ∈ st.fsFiles ∧ ∀ it ∈ l, u it = true → p ≠ it.localPath) := by
  intro l
  induction l with
  | nil =>
      intro st hfs _ _
      refine ⟨by simp [drainLoop], by simp [drainLoop], by simpa [drainLoop] using hfs, ?_⟩
      intro p
      simp [drainLoop]
  | cons it rest ih =>
      intro st hfs hpaths hpresent
      have hhead : it.localPath ∈ st.fsFiles := hpresent it (List.mem_cons_self it rest)
      have hrestpresent : ∀ it2 ∈ rest, it2.localPath ∈ st.fsFiles :=
        fun it2 h2 => hpresent it2 (List.mem_cons_of_mem it h2)
      simp only [List.map_cons, List.nodup_cons] at hpaths
      have hrestne : ∀ it2 ∈ rest, it2.localPath ≠ it.localPath := by
        intro it2 h2 heq
        exact hpaths.1 (heq ▸ List.mem_map_of_mem Item.localPath h2)
      rw [drainLoop_cons]
      set S := (if rest.isEmpty then runItem u st it
                else { runItem u st it with
                         trace := (runItem u st it).trace ++ [Ev.wait d] }) with hS
      have hSfs : S.fsFiles = (runItem u st it).fsFiles := by
        rw [hS]; split <;> rfl
      have hSsucc : S.succ = (runItem u st it).succ := by
        rw [hS]; split <;> rfl
      have hSfail : S.fail = (runItem u st it).fail := by
        rw [hS]; split <;> rfl
      cases hu : u it with
      | true =>
          have hrfs : (runItem u st it).fsFiles = st.fsFiles.erase it.localPath := by
            simp [runItem, hu, hhead]
          have hrsucc : (runItem u st it).succ = st.succ + 1 := by
            simp [runItem, hu, hhead]
          have hrfail : (runItem u st it).fail = st.fail := by
            simp [runItem, hu, hhead]
          have hfs2 : S.fsFiles.Nodup := by
            rw [hSfs, hrfs]; exact hfs.erase it.localPath
          have hpres2 : ∀ it2 ∈ rest, it2.localPath ∈ S.fsFiles := by
            intro it2 h2
            rw [hSfs, hrfs]
            exact (List.mem_erase_of_ne (hrestne it2 h2)).mpr (hrestpresent it2 h2)
          obtain ⟨hsucc, hfail, hnodup, hmem⟩ := ih S hfs2 hpaths.2 hpres2
          refine ⟨?_, ?_, hnodup, ?_⟩
          · rw [hsucc, hSsucc, hrsucc]
            simp [List.filter_cons, hu]
            omega
          · rw [hfail, hSfail, hrfail]
            simp [List.filter_cons, hu]
          · intro p
            rw [hmem p, hSfs, hrfs, hfs.mem_erase_iff]
            simp only [List.forall_mem_cons, hu, forall_const, true_implies]
            constructor
            · rintro ⟨⟨hne, hp⟩, hrest⟩
              exact ⟨hp, hne, hrest⟩
            · rintro ⟨hp, hne, hrest⟩
              exact ⟨⟨hne, hp⟩, hrest⟩
      | false =>
          have hrfs : (runItem u st it).fsFiles = st.fsFiles := by
            simp [runItem, hu]
          have hrsucc : (runItem u st it).succ = st.succ := by
            simp [runItem, hu]
          have hrfail : (runItem u st it).fail = st.fail + 1 := by
            simp [runItem, hu]
          have hfs2 : S.fsFiles.Nodup := by rw [hSfs, hrfs]; exact hfs
          have hpres2 : ∀ it2 ∈ rest, it2.localPath ∈ S.fsFiles := by
            intro it2 h2
            rw [hSfs, hrfs]
            exact hrestpresent it2 h2
          obtain ⟨hsucc, hfail, hnodup, hmem⟩ := ih S hfs2 hpaths.2 hpres2
          refine ⟨?_, ?_, hnodup, ?_⟩
          · rw [hsucc, hSsucc, hrsucc]
            simp [List.filter_cons, hu]
          · rw [hfail, hSfail, hrfail]
            simp [List.filter_cons, hu]
            omega
          · intro p
            rw [hmem p, hSfs, hrfs]
            simp only [List.forall_mem_cons, hu, Bool.false_eq_true, false_implies,
              true_and]

/-! ## Concrete fixtures for scenario theorems -/

def aliceInfo : UserInfo :=
  { password := "s1", email := "alice@example.com", egnytePath := "/Shared/alice" }

def bobInfo : UserInfo :=
  { password := "s2", email := "bob@example.com", egnytePath := "/Shared/bob" }

def demoMappings : List (String × UserInfo) :=
  [("alice", aliceInfo), ("bob", bobInfo)]

def conn1 : Conn := { id := 1, destroyed := false, readyStateClosed := false }

def conn2 : Conn := { id := 2, destroyed := false, readyStateClosed := false }

def conn3 : Conn := { id := 3, destroyed := false, readyStateClosed := false }

def emptyState : ServerState := { activeConnections := [], closedConns := [] }

def afterAlice : ServerState :=
  (handleLogin demoMappings 1 emptyState conn1 "alice" "s1" 0).state

def afterAlice2 : ServerState :=
  (handleLogin demoMappings 2 emptyState conn1 "alice" "s1" 0).state

def itemA : Item :=
  { localPath := "/scans/a.pdf", egnytePath := "/Shared/alice/a.pdf",
    fileName := "a.pdf", username := "alice" }

def itemB : Item :=
  { localPath := "/scans/b.pdf", egnytePath := "/Shared/alice/b.pdf",
    fileName := "b.pdf", username := "alice" }

def onlyBSucceeds : Item → Bool := fun it => it.fileName == "b.pdf"

def demoFs : List String := ["/scans/a.pdf", "/scans/b.pdf"]

/-! ## Claim theorems -/

/-- C1 counterexample: with `MAX_CONNECTIONS = 1`, admitting alice/s1 succeeds,
but a second admission attempt for alice/s1 while the first session is live is
rejected with the capacity error — it does not succeed, because the v31 login
handler runs the capacity check before the duplicate-session check and the
live first session counts against capacity. -/
theorem C1_counterexample :
    (handleLogin demoMappings 1 emptyState conn1 "alice" "s1" 0).result =
      LoginResult.ok ∧
    (handleLogin demoMappings 1 afterAlice conn2 "alice" "s1" 1).result =
      LoginResult.capacityExceeded := by
  constructor <;> rfl

/-- C1 amended: with capacity 1, admitting alice/s1 succeeds; a second
admission attempt for alice/s1 while the first session is live fails with the
capacity error (the live duplicate counts against capacity and is not
terminated first); and a subsequent admission attempt for bob with any secret
also fails with the capacity error. -/
theorem C1_amended_scenario :
    (handleLogin demoMappings 1 emptyState conn1 "alice" "s1" 0).result =
      LoginResult.ok ∧
    (handleLogin demoMappings 1 afterAlice conn2 "alice" "s1" 1).result =
      LoginResult.capacityExceeded ∧
    ∀ p : String,
      (handleLogin demoMappings 1
        (handleLogin demoMappings 1 afterAlice conn2 "alice" "s1" 1).state
        conn3 "bob" p 2).result = LoginResult.capacityExceeded := by
  refine ⟨rfl, rfl, fun p => rfl⟩

/-- C2: in every reachable registry state there is at most one live session
per identity (the username-keyed `activeConnections` map has pairwise distinct
keys), and when admission succeeds for an identity that already has a live
(post-prune) session, the handler closes the prior connection and removes its
entry before recording the new entry: the action trace is exactly
close-then-remove-then-record, the prior connection id lands in the closed
set, and the resulting registry is the pruned table with the old entry erased
and the new entry appended. -/
theorem C2_single_session_invariant :
    (∀ (mappings : List (String × UserInfo)) (maxConnections : Nat)
        (st : ServerState),
       Reachable mappings maxConnections st → keysNodup st) ∧
    (∀ (mappings : List (String × UserInfo)) (maxConnections : Nat)
        (st : ServerState) (conn : Conn) (u p : String) (now : Nat)
        (existing : ConnectionInfo),
       lookupKey u (pruneStale st.activeConnections) = some existing →
       (handleLogin mappings maxConnections st conn u p now).result =
         LoginResult.ok →
       ∃ userInfo,
         lookupKey u mappings = some userInfo ∧
         (handleLogin mappings maxConnections st conn u p now).state.activeConnections =
           eraseKey u (pruneStale st.activeConnections) ++
             [(u, ⟨conn, u, userInfo, now, now⟩)] ∧
         (handleLogin mappings maxConnections st conn u p now).state.closedConns =
           existing.connection.id :: st.closedConns ∧
         (handleLogin mappings maxConnections st conn u p now).actions =
           [LoginAction.closeConnection existing.connection.id,
            LoginAction.removeEntry u,
            LoginAction.recordEntry u conn.id]) := by
  constructor
  · intro mappings maxConnections st h
    induction h with
    | init => simp [keysNodup]
    | login st conn u p now _ ih => exact keysNodup_handleLogin _ _ _ _ _ _ _ ih
    | release st u _ ih => exact ((eraseKey_sublist u _).map Prod.fst).nodup ih
    | idle st u cid _ ih => exact ((eraseKey_sublist u _).map Prod.fst).nodup ih
    | sweep st _ ih => exact (keys_pruneStale_sublist _).nodup ih
  · intro mappings maxConnections st conn u p now existing hex hok
    by_cases hcap : maxConnections ≤ (pruneStale st.activeConnections).length
    · exfalso
      simp [handleLogin, hcap] at hok
    · cases hmu : lookupKey u mappings with
      | none =>
          exfalso
          simp [handleLogin, hcap, hmu] at hok
      | some userInfo =>
          by_cases hpw : userInfo.password = p
          · refine ⟨userInfo, rfl, ?_⟩
            simp [handleLogin, hcap, hmu, hpw, hex]
          · exfalso
            simp [handleLogin, hcap, hmu, hpw] at hok

/-- C2 witness: the invariant at the concrete state reached by admitting
alice (capacity 2), and the duplicate-replacement facts when alice logs in
again on a second connection. -/
theorem C2_witness :
    keysNodup afterAlice2 ∧
    (handleLogin demoMappings 2 afterAlice2 conn2 "alice" "s1" 1).actions =
      [LoginAction.closeConnection 1, LoginAction.removeEntry "alice",
       LoginAction.recordEntry "alice" 2] := by
  constructor
  · exact C2_single_session_invariant.1 demoMappings 2 afterAlice2
      (Reachable.login emptyState conn1 "alice" "s1" 0 Reachable.init)
  · obtain ⟨ui, hui, hconns, hclosed, hact⟩ :=
      C2_single_session_invariant.2 demoMappings 2 afterAlice2 conn2 "alice" "s1" 1
        ⟨conn1, "alice", aliceInfo, 0, 0⟩ (by decide) (by decide)
    exact hact

/-- C10: the v31 admission checks run in source order — stale-pruning first,
then capacity, then unknown-identity, then secret, then duplicate
termination. When the pruned registry is at capacity every attempt is
rejected with the capacity error regardless of its credentials (a live
duplicate counts against capacity, since it is only terminated in the final,
all-checks-passed branch); below capacity an unknown user is rejected before
the secret is examined; a known user with a wrong secret is rejected; and a
known user with the right secret is admitted, closing any live duplicate. -/
theorem C10_admission_check_order :
    (∀ (mappings : List (String × UserInfo)) (maxConnections : Nat)
        (st : ServerState) (conn : Conn) (u p : String) (now : Nat),
       maxConnections ≤ (pruneStale st.activeConnections).length →
       (handleLogin mappings maxConnections st conn u p now).result =
         LoginResult.capacityExceeded) ∧
    (∀ (mappings : List (String × UserInfo)) (maxConnections : Nat)
        (st : ServerState) (conn : Conn) (u p : String) (now : Nat),
       (pruneStale st.activeConnections).length < maxConnections →
       lookupKey u mappings = none →
       (handleLogin mappings maxConnections st conn u p now).result =
         LoginResult.userNotFound) ∧
    (∀ (mappings : List (String × UserInfo)) (maxConnections : Nat)
        (st : ServerState) (conn : Conn) (u p : String) (now : Nat)
        (info : UserInfo),
       (pruneStale st.activeConnections).length < maxConnections →
       lookupKey u mappings = some info →
       info.password ≠ p →
       (handleLogin mappings maxConnections st conn u p now).result =
         LoginResult.invalidPassword) ∧
    (∀ (mappings : List (String × UserInfo)) (maxConnections : Nat)
        (st : ServerState) (conn : Conn) (u p : String) (now : Nat)
        (info : UserInfo) (existing : ConnectionInfo),
       (pruneStale st.activeConnections).length < maxConnections →
       lookupKey u mappings = some info →
       info.password = p →
       lookupKey u (pruneStale st.activeConnections) = some existing →
       (handleLogin mappings maxConnections st conn u p now).result =
           LoginResult.ok ∧
         LoginAction.closeConnection existing.connection.id ∈
           (handleLogin mappings maxConnections st conn u p now).actions) := by
  refine ⟨?_, ?_, ?_, ?_⟩
  · intro mappings maxConnections st conn u p now h
    simp [handleLogin, h]
  · intro mappings maxConnections st conn u p now h hmu
    have hc : ¬ maxConnections ≤ (pruneStale st.activeConnections).length := by omega
    simp [handleLogin, hc, hmu]
  · intro mappings maxConnections st conn u p now info h hmu hpw
    have hc : ¬ maxConnections ≤ (pruneStale st.activeConnections).length := by omega
    simp [handleLogin, hc, hmu, hpw]
  · intro mappings maxConnections st conn u p now info existing h hmu hpw hex
    have hc : ¬ maxConnections ≤ (pruneStale st.activeConnections).length := by omega
    simp [handleLogin, hc, hmu, hpw, hex]

/-- C10 witness: each ordering fact at a concrete input — a full registry
rejects bob with the capacity error before his credentials are read; below
capacity an unknown user and a wrong password are rejected in order; and a
duplicate alice login succeeds and closes the prior connection. -/
theorem C10_witness :
    (handleLogin demoMappings 1 afterAlice conn3 "bob" "whatever" 2).result =
      LoginResult.capacityExceeded ∧
    (handleLogin demoMappings 10 emptyState conn1 "carol" "x" 0).result =
      LoginResult.userNotFound ∧
    (handleLogin demoMappings 10 emptyState conn1 "alice" "wrong" 0).result =
      LoginResult.invalidPassword ∧
    ((handleLogin demoMappings 2 afterAlice2 conn2 "alice" "s1" 1).result =
        LoginResult.ok ∧
      LoginAction.closeConnection 1 ∈
        (handleLogin demoMappings 2 afterAlice2 conn2 "alice" "s1" 1).actions) := by
  refine ⟨C10_admission_check_order.1 demoMappings 1 afterAlice conn3 "bob" "whatever" 2
      (by decide),
    C10_admission_check_order.2.1 demoMappings 10 emptyState conn1 "carol" "x" 0
      (by decide) (by decide),
    C10_admission_check_order.2.2.1 demoMappings 10 emptyState conn1 "alice" "wrong" 0
      aliceInfo (by decide) (by decide) (by decide),
    C10_admission_check_order.2.2.2 demoMappings 2 afterAlice2 conn2 "alice" "s1" 1
      aliceInfo ⟨conn1, "alice", aliceInfo, 0, 0⟩ (by decide) (by decide) (by decide)
      (by decide)⟩

/-- The part_000 drain's trace over a snapshot is the paced dispatch trace. -/
theorem drain_trace_eq_interPace (u : Item → Bool) (d : Nat) (queue : List Item)
    (fsFiles : List String) (arrivals : List Item) :
    (processUploadQueueModel u d queue fsFiles arrivals).drained.trace =
      interPace d queue := by
  show (drainLoop u d queue ⟨fsFiles, 0, 0, []⟩).trace = interPace d queue
  rw [drainLoop_trace]
  rfl

/-- The part_000 drain dispatches exactly its snapshot, in order. -/
theorem drain_dispatches_eq_snapshot (u : Item → Bool) (d : Nat)
    (queue : List Item) (fsFiles : List String) (arrivals : List Item) :
    dispatches (processUploadQueueModel u d queue fsFiles arrivals).drained.trace =
      queue := by
  rw [drain_trace_eq_interPace, dispatches_interPace]

/-- C3 counterexample: the ftpd variant's drain does not snapshot — its
`for...of` loop walks the live queue, so `itemB`, enqueued while the drain is
processing `itemA`, is attempted by the *current* drain, contradicting the
claim that items enqueued during a drain are attempted only by a subsequent
drain. -/
theorem C3_counterexample :
    (drainFtpdModel onlyBSucceeds [itemA] [[itemB]] demoFs).1 =
      [itemA, itemB] := by
  simp [drainFtpdModel, drainFtpdGo, onlyBSucceeds, itemA, itemB, demoFs]

/-- C3 amended (holds for the part_000 drain, not the ftpd variant): the
part_000 `processUploadQueue` snapshots and clears the queue before its first
suspension, attempts exactly the snapshot items once each in order, and every
item enqueued during the drain lands in the fresh queue for a subsequent
drain — never attempted by the current one, never lost. -/
theorem C3_fixed_drain_exactly_once :
    ∀ (u : Item → Bool) (d : Nat) (queue : List Item) (fsFiles : List String)
      (arrivals : List Item),
      dispatches (processUploadQueueModel u d queue fsFiles arrivals).drained.trace =
        queue ∧
      (processUploadQueueModel u d queue fsFiles arrivals).finalQueue = arrivals ∧
      (∀ it ∈ arrivals, it ∉ queue →
        it ∉ dispatches
          (processUploadQueueModel u d queue fsFiles arrivals).drained.trace) := by
  intro u d queue fsFiles arrivals
  refine ⟨drain_dispatches_eq_snapshot u d queue fsFiles arrivals, rfl, ?_⟩
  intro it _ hnot
  rw [drain_dispatches_eq_snapshot]
  exact hnot

/-- C3 witness: a concrete part_000 drain of `[itemA]` with `itemB` arriving
mid-drain — `itemA` is attempted once, `itemB` is not attempted and sits in
the fresh queue. -/
theorem C3_witness :
    dispatches (processUploadQueueModel onlyBSucceeds 3000 [itemA] demoFs
        [itemB]).drained.trace = [itemA] ∧
    (processUploadQueueModel onlyBSucceeds 3000 [itemA] demoFs [itemB]).finalQueue =
      [itemB] ∧
    itemB ∉ dispatches (processUploadQueueModel onlyBSucceeds 3000 [itemA] demoFs
        [itemB]).drained.trace := by
  obtain ⟨h1, h2, h3⟩ :=
    C3_fixed_drain_exactly_once onlyBSucceeds 3000 [itemA] demoFs [itemB]
  exact ⟨h1, h2, h3 itemB (by decide) (by decide)⟩

/-- C4: in a part_000 drain over a snapshot of distinct staged files, a failed
item's local file is left present, a successful item's local file is deleted,
the drain dispatches every snapshot item (one failure never aborts the batch),
and the batch summary reports the success and failure counts. -/
theorem C4_item_failure_containment :
    ∀ (u : Item → Bool) (d : Nat) (queue : List Item) (fsFiles : List String)
      (arrivals : List Item),
      fsFiles.Nodup →
      (queue.map Item.localPath).Nodup →
      (∀ it ∈ queue, it.localPath ∈ fsFiles) →
      (∀ it ∈ queue, u it = false →
        it.localPath ∈
          (processUploadQueueModel u d queue fsFiles arrivals).drained.fsFiles) ∧
      (∀ it ∈ queue, u it = true →
        it.localPath ∉
          (processUploadQueueModel u d queue fsFiles arrivals).drained.fsFiles) ∧
      dispatches (processUploadQueueModel u d queue fsFiles arrivals).drained.trace =
        queue ∧
      batchReport (processUploadQueueModel u d queue fsFiles arrivals).drained =
        ((queue.filter (fun it => u it)).length,
         (queue.filter (fun it => !u it)).length) := by
  intro u d queue fsFiles arrivals hfs hpaths hpresent
  obtain ⟨hsucc, hfail, hnodup, hmem⟩ :=
    drainLoop_spec u d queue ⟨fsFiles, 0, 0, []⟩ hfs hpaths hpresent
  have hdr : (processUploadQueueModel u d queue fsFiles arrivals).drained =
      drainLoop u d queue ⟨fsFiles, 0, 0, []⟩ := rfl
  refine ⟨?_, ?_, ?_, ?_⟩
  · intro it hit hu
    rw [hdr, hmem]
    refine ⟨hpresent it hit, ?_⟩
    intro it2 hit2 hu2 heq
    have : it = it2 := List.inj_on_of_nodup_map hpaths hit hit2 heq
    rw [this] at hu
    rw [hu] at hu2
    exact Bool.false_ne_true hu2
  · intro it hit hu
    rw [hdr, hmem]
    rintro ⟨-, hforall⟩
    exact hforall it hit hu rfl
  · rw [hdr, drainLoop_trace]
    show dispatches ([] ++ interPace d queue) = queue
    rw [List.nil_append, dispatches_interPace]
  · rw [hdr]
    show ((drainLoop u d queue ⟨fsFiles, 0, 0, []⟩).succ,
          (drainLoop u d queue ⟨fsFiles, 0, 0, []⟩).fail) = _
    rw [hsucc, hfail]
    simp

/-- C4 witness: the spec's scenario — drain `[a.pdf, b.pdf]` where `a.pdf`
fails and `b.pdf` succeeds: `a.pdf` remains staged, `b.pdf` is deleted, both
were attempted, and the summary reports 1 success / 1 failure. -/
theorem C4_witness :
    itemA.localPath ∈
      (processUploadQueueModel onlyBSucceeds 3000 [itemA, itemB] demoFs
        []).drained.fsFiles ∧
    itemB.localPath ∉
      (processUploadQueueModel onlyBSucceeds 3000 [itemA, itemB] demoFs
        []).drained.fsFiles ∧
    dispatches (processUploadQueueModel onlyBSucceeds 3000 [itemA, itemB] demoFs
        []).drained.trace = [itemA, itemB] ∧
    batchReport (processUploadQueueModel onlyBSucceeds 3000 [itemA, itemB] demoFs
        []).drained = (1, 1) := by
  obtain ⟨h1, h2, h3, h4⟩ :=
    C4_item_failure_containment onlyBSucceeds 3000 [itemA, itemB] demoFs []
      (by decide) (by decide) (by decide)
  refine ⟨h1 itemA (by decide) (by decide), h2 itemB (by decide) (by decide), h3, ?_⟩
  rw [h4]
  decide

/-- C5 amended (holds for the part_000 drain, not the backup variant): every
part_000 drain trace is well paced — the configured delay is waited between
any two consecutive dispatches, whether each item succeeded or failed, and no
wait follows the last dispatch. -/
theorem C5_fixed_drain_paced :
    ∀ (u : Item → Bool) (d : Nat) (queue : List Item) (fsFiles : List String)
      (arrivals : List Item),
      wellPacedB d
        (processUploadQueueModel u d queue fsFiles arrivals).drained.trace = true := by
  intro u d queue fsFiles arrivals
  rw [drain_trace_eq_interPace, wellPacedB_interPace]

/-- C5 counterexample: the backup variant's `processUploads` paces only inside
the success path — when `a.pdf` fails and `b.pdf` succeeds the trace is
dispatch, dispatch, wait: no delay between the two dispatches, and a wait
*after* the last item (the failed item is still in the live queue, so
`uploadQueue.length > 0` holds after the last success), refuting the pacing
claim for this cited implementation. -/
theorem C5_counterexample :
    (processUploadsModel onlyBSucceeds 3000 [itemA, itemB] demoFs).trace =
      [Ev.dispatch itemA, Ev.dispatch itemB, Ev.wait 3000] ∧
    wellPacedB 3000
      (processUploadsModel onlyBSucceeds 3000 [itemA, itemB] demoFs).trace = false := by
  constructor <;> rfl

/-- C9 amended (holds for the part_000 drain, not the backup variant): the
part_000 drain removes every snapshot item from the pending set at the moment
the snapshot is taken — whether its attempt later succeeds or fails — and a
failed item is not re-inserted: the queue after the drain holds exactly the
mid-drain arrivals, and a subsequent drain over that queue never re-attempts
a snapshot item that was not independently re-enqueued. -/
theorem C9_fixed_drain_no_reattempt :
    ∀ (u : Item → Bool) (d : Nat) (queue : List Item) (fsFiles : List String)
      (arrivals : List Item),
      (processUploadQueueModel u d queue fsFiles arrivals).finalQueue = arrivals ∧
      (∀ it ∈ queue, it ∉ arrivals →
        it ∉ (processUploadQueueModel u d queue fsFiles arrivals).finalQueue ∧
        ∀ (d2 : Nat) (fs2 : List String) (arrivals2 : List Item),
          it ∉ dispatches
            (processUploadQueueModel u d2
              (processUploadQueueModel u d queue fsFiles arrivals).finalQueue
              fs2 arrivals2).drained.trace) := by
  intro u d queue fsFiles arrivals
  refine ⟨rfl, ?_⟩
  intro it _ hnot
  refine ⟨hnot, ?_⟩
  intro d2 fs2 arrivals2
  rw [drain_dispatches_eq_snapshot]
  exact hnot

/-- C9 witness: drain `[a.pdf]` with a failing upload — the pending set is
empty afterwards (the failed item was removed at snapshot time, not
re-inserted) and a subsequent drain attempts nothing. -/
theorem C9_witness :
    (processUploadQueueModel (fun _ => false) 3000 [itemA] demoFs []).finalQueue =
      [] ∧
    itemA ∉ (processUploadQueueModel (fun _ => false) 3000 [itemA] demoFs
      []).finalQueue ∧
    itemA ∉ dispatches (processUploadQueueModel (fun _ => false) 3000
      (processUploadQueueModel (fun _ => false) 3000 [itemA] demoFs []).finalQueue
      demoFs []).drained.trace := by
  obtain ⟨h1, h2⟩ :=
    C9_fixed_drain_no_reattempt (fun _ => false) 3000 [itemA] demoFs []
  obtain ⟨h3, h4⟩ := h2 itemA (by decide) (by decide)
  exact ⟨h1, h3, h4 3000 demoFs []⟩

/-- C9 counterexample: in the backup variant, a failed item is *not* removed
from the pending set — after a drain in which `a.pdf` fails, the queue still
holds it, and the next `processUploads` run (triggered by the next disconnect)
automatically re-attempts it, contradicting the claim that every pending
transfer is removed when dispatched and a failed item is never automatically
re-attempted. -/
theorem C9_counterexample :
    (processUploadsModel (fun _ => false) 3000 [itemA] demoFs).queue = [itemA] ∧
    dispatches (processUploadsModel (fun _ => false) 3000
      (processUploadsModel (fun _ => false) 3000 [itemA] demoFs).queue
      demoFs).trace = [itemA] := by
  constructor <;> rfl

/-- C6 counterexample: the v31 login handler distinguishes the two failure
modes to the caller — an unknown username is rejected with a message naming
it as not found, while a known username with a wrong secret is rejected with
an invalid-password message; the two observable rejections differ. -/
theorem C6_counterexample :
    (handleLogin demoMappings 10 emptyState conn1 "carol" "s1" 0).message =
      some "User \"carol\" not found" ∧
    (handleLogin demoMappings 10 emptyState conn1 "alice" "wrong" 0).message =
      some "Invalid password" ∧
    (handleLogin demoMappings 10 emptyState conn1 "carol" "s1" 0).message ≠
      (handleLogin demoMappings 10 emptyState conn1 "alice" "wrong" 0).message := by
  refine ⟨rfl, rfl, by decide⟩

/-- C6 amended (holds for the part_000 handler, not the v31 handler): the
part_000 credential check collapses unknown identity and secret mismatch into
the single rejection message `Authentication failed`, so any two failed
authentication attempts are observably identical. -/
theorem C6_fixed_check_uniform_rejection :
    ∀ (mappings : List (String × UserInfo)) (u1 p1 u2 p2 m1 m2 : String),
      loginFixedCheck mappings u1 p1 = some m1 →
      loginFixedCheck mappings u2 p2 = some m2 →
      m1 = m2 := by
  have hconst : ∀ (mappings : List (String × UserInfo)) (u p m : String),
      loginFixedCheck mappings u p = some m → m = "Authentication failed" := by
    intro mappings u p m h
    unfold loginFixedCheck at h
    cases hmu : lookupKey u mappings with
    | none =>
        rw [hmu] at h
        simp at h
        exact h.symm
    | some info =>
        rw [hmu] at h
        by_cases hpw : info.password = p
        · simp [hpw] at h
        · simp [hpw] at h
          exact h.symm
  intro mappings u1 p1 u2 p2 m1 m2 h1 h2
  rw [hconst mappings u1 p1 m1 h1, hconst mappings u2 p2 m2 h2]

/-- C6 witness: the uniform-rejection theorem applied to an unknown user and
a known user with a wrong secret against the demo credential table. -/
theorem C6_witness :
    loginFixedCheck demoMappings "carol" "s1" = some "Authentication failed" ∧
    loginFixedCheck demoMappings "alice" "wrong" = some "Authentication failed" ∧
    ("Authentication failed" : String) = "Authentication failed" :=
  ⟨rfl, rfl,
   C6_fixed_check_uniform_rejection demoMappings "carol" "s1" "alice" "wrong"
     "Authentication failed" "Authentication failed" rfl rfl⟩

/-- C7: the v31 STOR handler schedules the auto-disconnect timer exactly when
the upload pipeline ran and the remote relay succeeded (file statted, Egnyte
client configured, upload succeeded) — a failed relay never schedules it and
the session stays open — and when the timer fires it closes the connection
only if the session is still registered, so a session released before the
grace delay elapses is not closed. -/
theorem C7_auto_disconnect_policy :
    (∀ (egnyteConfigured statOk uploadOk unlinkOk : Bool) (delay : Nat),
       StorAction.scheduleAutoDisconnect delay ∈
           storHandler egnyteConfigured statOk uploadOk unlinkOk delay ↔
         egnyteConfigured = true ∧ statOk = true ∧ uploadOk = true) ∧
    (∀ (st : ServerState) (username : String),
       hasKey username st.activeConnections = false →
       autoDisconnectFire st username = false) ∧
    (∀ (st : ServerState) (username : String),
       hasKey username st.activeConnections = true →
       autoDisconnectFire st username = true) := by
  refine ⟨?_, ?_, ?_⟩
  · intro egnyteConfigured statOk uploadOk unlinkOk delay
    cases egnyteConfigured <;> cases statOk <;> cases uploadOk <;>
      cases unlinkOk <;> simp [storHandler]
  · intro st username h
    exact h
  · intro st username h
    exact h

/-- C7 witness: a successful upload schedules the timer; the timer fired on a
released session does not close, and on a still-registered session does. -/
theorem C7_witness :
    (StorAction.scheduleAutoDisconnect 10000 ∈ storHandler true true true true 10000 ↔
      (true : Bool) = true ∧ (true : Bool) = true ∧ (true : Bool) = true) ∧
    autoDisconnectFire emptyState "alice" = false ∧
    autoDisconnectFire afterAlice "alice" = true :=
  ⟨C7_auto_disconnect_policy.1 true true true true 10000,
   C7_auto_disconnect_policy.2.1 emptyState "alice" (by decide),
   C7_auto_disconnect_policy.2.2 afterAlice "alice" (by decide)⟩

/-- C8: whenever the local file exists, `uploadFile` attempts the remote
directory-ensure step before the HTTP upload, the ensure step never raises to
its caller whatever the remote directory outcomes, and the upload proceeds
and its success depends only on the HTTP outcome — a directory failure is a
warning, never a propagated error. -/
theorem C8_ensure_dir_graceful_degradation :
    ∀ (checkOk check404 createOk httpOk : Bool),
      (ensureDirectoryExists checkOk check404 createOk).raised = false ∧
      uploadFile true checkOk check404 createOk httpOk =
        { steps := [UploadStep.checkLocalFile, UploadStep.ensureDir,
                    UploadStep.httpUpload],
          success := httpOk, raised := !httpOk } ∧
      ((ensureDirectoryExists checkOk check404 createOk).warned = true →
        (uploadFile true checkOk check404 createOk httpOk).success = httpOk) := by
  intro checkOk check404 createOk httpOk
  refine ⟨?_, ?_, ?_⟩
  · cases checkOk <;> cases check404 <;> cases createOk <;> rfl
  · cases httpOk <;> rfl
  · intro _
    cases httpOk <;> rfl

/-- C8 witness: with the directory check failing outright (warned) and the
HTTP upload succeeding, the ensure step raises nothing and the upload still
runs and succeeds. -/
theorem C8_witness :
    (ensureDirectoryExists false false true).raised = false ∧
    uploadFile true false false true true =
      { steps := [UploadStep.checkLocalFile, UploadStep.ensureDir,
                  UploadStep.httpUpload],
        success := true, raised := !true } ∧
    ((ensureDirectoryExists false false true).warned = true →
      (uploadFile true false false true true).success = true) :=
  C8_ensure_dir_graceful_degradation false false true true

end Gateway
